import Mathlib

/-!
Verification of the openclaw Cron/Scheduling Service and two auxiliary
modules (the global plugin hook runner and the onboarding credential
helpers) against their natural-language specification.

The cron service implementation (src/cron/service/state.ts,
src/cron/service/timer.ts, src/cron/types.ts) is exercised only through its
test file in the sources available here; the service itself is modelled
from the specification (each such definition carries a doc comment saying
so). The hook-runner and credential modules are embedded directly from
their TypeScript sources.

Timestamps are epoch milliseconds, modelled as integers (`ℤ`); the refire
gap is a rational (`ℚ`) because JavaScript's `everyMs / 2` is exact
division of IEEE doubles, which on integer millisecond inputs yields exact
halves.
-/

namespace Openclaw

/-- Modelled from the spec: `schedule` is a tagged variant —
`{kind: "cron", expr, tz}` (5-field cron expression plus IANA timezone) or
`{kind: "every", everyMs}` (fixed interval, timezone-independent). -/
inductive Schedule
  | cron (expr : String) (tz : String)
  | every (everyMs : ℤ)
deriving DecidableEq, Repr

/-- Modelled from the spec: `sessionTarget` is `"isolated"` or `"shared"`. -/
inductive SessionTarget
  | isolated
  | shared
deriving DecidableEq, Repr

/-- Modelled from the spec: `wakeMode` is `"now"` or `"next-heartbeat"`. -/
inductive WakeMode
  | now
  | nextHeartbeat
deriving DecidableEq, Repr

/-- Modelled from the spec: `payload` is opaque tagged data describing the
work to perform, e.g. `{kind:"agentTurn", message}`. -/
inductive Payload
  | agentTurn (message : String)
deriving DecidableEq, Repr

/-- Modelled from the spec: `delivery` is `{mode: "announce" | "none"}`. -/
inductive DeliveryMode
  | announce
  | none
deriving DecidableEq, Repr

/-- Modelled from the spec: the runtime `state` of a job,
`{lastRunAtMs?, lastStatus?, lastDurationMs?, nextRunAtMs?}`. -/
structure JobState where
  lastRunAtMs : Option ℤ
  lastStatus : Option String
  lastDurationMs : Option ℤ
  nextRunAtMs : Option ℤ
deriving DecidableEq, Repr

/-- Modelled from the spec: a `CronJob`, the persisted scheduling unit of
§3 of the spec (the cron service sources are not available here, only
their test file). -/
structure CronJob where
  id : String
  name : String
  enabled : Bool
  deleteAfterRun : Bool
  createdAtMs : ℤ
  updatedAtMs : ℤ
  schedule : Schedule
  sessionTarget : SessionTarget
  wakeMode : WakeMode
  payload : Payload
  delivery : DeliveryMode
  state : JobState
deriving DecidableEq, Repr

/-- Modelled from the spec: `CronStore` is `{version: int, jobs: CronJob[]}`,
the unit of persistence. -/
structure CronStore where
  version : ℤ
  jobs : List CronJob
deriving DecidableEq, Repr

/-- Modelled from the spec: the fixed refire-gap floor, observed value
2000 ms. -/
def MIN_REFIRE_GAP_MS : ℚ := 2000

/-- Modelled from the spec: `minRefireGap(schedule) → ms`; the fixed floor
for `"cron"` schedules, and for `"every"` schedules precisely
`gap = everyMs < 2 × MIN_REFIRE_GAP_MS ? everyMs / 2 : MIN_REFIRE_GAP_MS`. -/
def minRefireGap : Schedule → ℚ
  | .cron _ _ => MIN_REFIRE_GAP_MS
  | .every everyMs =>
      if (everyMs : ℚ) < 2 * MIN_REFIRE_GAP_MS then (everyMs : ℚ) / 2
      else MIN_REFIRE_GAP_MS

/-- Modelled from the spec: `computeNextRun(schedule, fromMs, tz?) → ms`.
For `kind:"every"` the result is `fromMs + everyMs`, timezone-independent.
For `kind:"cron"` the first matching instant strictly after `fromMs` is
computed by a cron/timezone library that is out of this spec's scope; it
is abstracted as the parameter `cronNext`, which returns `none` on an
unparsable expression or unknown timezone. -/
def computeNextRun (cronNext : String → String → ℤ → Option ℤ) :
    Schedule → ℤ → Option String → Option ℤ
  | .every everyMs, fromMs, _ => some (fromMs + everyMs)
  | .cron expr tz, fromMs, tzArg => cronNext expr (tzArg.getD tz) fromMs

/-- Modelled from the spec: a job is due when `state.nextRunAtMs ≤ nowMs`
(a job with no `nextRunAtMs` has no due time and is not due). -/
def isDue (job : CronJob) (nowMs : ℤ) : Bool :=
  match job.state.nextRunAtMs with
  | some next => decide (next ≤ nowMs)
  | none => false

/-- Modelled from the spec: the Refire Guard,
`isEligible(job, nowMs) → bool` — due-ness, and additionally
`state.lastRunAtMs` is undefined OR
`nowMs − state.lastRunAtMs ≥ minRefireGap(job.schedule)`. -/
def isEligible (job : CronJob) (nowMs : ℤ) : Bool :=
  isDue job nowMs &&
    match job.state.lastRunAtMs with
    | none => true
    | some last => decide (minRefireGap job.schedule ≤ ((nowMs - last : ℤ) : ℚ))

/-- Modelled from the spec: the result of the external job runner,
`runIsolatedAgentJob(job) → Promise<{status, summary}>`. -/
structure RunResult where
  status : String
  summary : String
deriving DecidableEq, Repr

/-- Modelled from the spec: how the external runner's promise settles for a
job within a tick, together with the measured elapsed wall time. -/
inductive RunOutcome
  | success (result : RunResult) (durationMs : ℤ)
  | failure (durationMs : ℤ)
deriving DecidableEq, Repr

/-- Modelled from the spec: the collaborators a tick consumes — the
injectable clock `nowMs()`, the external job runner (deterministic within a
single tick), and the cron/timezone evaluation library. -/
structure TickEnv where
  nowMs : ℤ
  runner : CronJob → RunOutcome
  cronNext : String → String → ℤ → Option ℤ

/-- Modelled from the spec: the Execution & Outcome Recorder (§4.5).
On success: `lastRunAtMs = nowMs`, `lastStatus = result.status`,
`lastDurationMs = elapsed`, recompute `nextRunAtMs`; if `deleteAfterRun`,
remove the job from the store instead of updating its state. On failure:
record `lastStatus` as a failure indicator and still update
`lastRunAtMs`/`nextRunAtMs`. `none` means the job is removed. -/
def recordOutcome (env : TickEnv) (job : CronJob) : RunOutcome → Option CronJob
  | .success result durationMs =>
      if job.deleteAfterRun then none
      else some { job with state :=
        { lastRunAtMs := some env.nowMs
          lastStatus := some result.status
          lastDurationMs := some durationMs
          nextRunAtMs := computeNextRun env.cronNext job.schedule env.nowMs none } }
  | .failure durationMs =>
      some { job with state :=
        { lastRunAtMs := some env.nowMs
          lastStatus := some "error"
          lastDurationMs := some durationMs
          nextRunAtMs := computeNextRun env.cronNext job.schedule env.nowMs none } }

/-- Modelled from the spec: per-job step of a tick — a disabled, not-due or
due-but-blocked job is a no-op; a due-and-eligible job is handed to the
Execution & Outcome Recorder. -/
def processJob (env : TickEnv) (job : CronJob) : Option CronJob :=
  if job.enabled && isEligible job env.nowMs then
    recordOutcome env job (env.runner job)
  else some job

/-- Modelled from the spec: one firing of the tick loop (`onTimer`):
iterate all jobs in store order, filter to `enabled` jobs passing the
Refire Guard, dispatch each to the runner, and record outcomes on the
in-memory store. Returns the mutated store and the ids of the jobs
dispatched this tick. -/
def onTimer (env : TickEnv) (store : CronStore) : CronStore × List String :=
  ({ version := store.version, jobs := store.jobs.filterMap (processJob env) },
   (store.jobs.filter (fun j => j.enabled && isEligible j env.nowMs)).map (·.id))

/-- Modelled from the spec: the persisted file is a single JSON document;
this is the JSON value tree (numbers restricted to the integer epoch
milliseconds the store actually persists). -/
inductive Json
  | null
  | bool (b : Bool)
  | num (n : ℤ)
  | str (s : String)
  | arr (elems : List Json)
  | obj (fields : List (String × Json))

/-- Serialization of an optional millisecond field: absent runtime-state
fields persist as JSON null. -/
def encodeOptInt : Option ℤ → Json
  | .none => .null
  | .some n => .num n

/-- Parse an optional millisecond field. -/
def decodeOptInt : Json → Option (Option ℤ)
  | .null => some .none
  | .num n => some (some n)
  | _ => none

/-- Serialization of an optional string field. -/
def encodeOptStr : Option String → Json
  | .none => .null
  | .some s => .str s

/-- Parse an optional string field. -/
def decodeOptStr : Json → Option (Option String)
  | .null => some .none
  | .str s => some (some s)
  | _ => none

/-- Modelled from the spec: the `schedule` tagged variant as persisted. -/
def encodeSchedule : Schedule → Json
  | .cron expr tz => .obj [("kind", .str "cron"), ("expr", .str expr), ("tz", .str tz)]
  | .every everyMs => .obj [("kind", .str "every"), ("everyMs", .num everyMs)]

/-- Parse a persisted `schedule` variant. -/
def decodeSchedule : Json → Option Schedule
  | .obj [("kind", .str "cron"), ("expr", .str expr), ("tz", .str tz)] =>
      some (.cron expr tz)
  | .obj [("kind", .str "every"), ("everyMs", .num everyMs)] =>
      some (.every everyMs)
  | _ => none

/-- Modelled from the spec: `sessionTarget` as persisted. -/
def encodeSessionTarget : SessionTarget → Json
  | .isolated => .str "isolated"
  | .shared => .str "shared"

/-- Parse a persisted `sessionTarget`. -/
def decodeSessionTarget : Json → Option SessionTarget
  | .str "isolated" => some .isolated
  | .str "shared" => some .shared
  | _ => none

/-- Modelled from the spec: `wakeMode` as persisted. -/
def encodeWakeMode : WakeMode → Json
  | .now => .str "now"
  | .nextHeartbeat => .str "next-heartbeat"

/-- Parse a persisted `wakeMode`. -/
def decodeWakeMode : Json → Option WakeMode
  | .str "now" => some .now
  | .str "next-heartbeat" => some .nextHeartbeat
  | _ => none

/-- Modelled from the spec: the tagged `payload` as persisted. -/
def encodePayload : Payload → Json
  | .agentTurn message => .obj [("kind", .str "agentTurn"), ("message", .str message)]

/-- Parse a persisted `payload`. -/
def decodePayload : Json → Option Payload
  | .obj [("kind", .str "agentTurn"), ("message", .str message)] =>
      some (.agentTurn message)
  | _ => none

/-- Modelled from the spec: `delivery` as persisted. -/
def encodeDelivery : DeliveryMode → Json
  | .announce => .obj [("mode", .str "announce")]
  | .none => .obj [("mode", .str "none")]

/-- Parse a persisted `delivery`. -/
def decodeDelivery : Json → Option DeliveryMode
  | .obj [("mode", .str "announce")] => some .announce
  | .obj [("mode", .str "none")] => some .none
  | _ => none

/-- Modelled from the spec: the runtime `state` object as persisted. -/
def encodeJobState (s : JobState) : Json :=
  .obj [("lastRunAtMs", encodeOptInt s.lastRunAtMs),
        ("lastStatus", encodeOptStr s.lastStatus),
        ("lastDurationMs", encodeOptInt s.lastDurationMs),
        ("nextRunAtMs", encodeOptInt s.nextRunAtMs)]

/-- Parse a persisted runtime `state` object. -/
def decodeJobState : Json → Option JobState
  | .obj [("lastRunAtMs", l), ("lastStatus", st), ("lastDurationMs", d), ("nextRunAtMs", n)] => do
      let lastRunAtMs ← decodeOptInt l
      let lastStatus ← decodeOptStr st
      let lastDurationMs ← decodeOptInt d
      let nextRunAtMs ← decodeOptInt n
      some { lastRunAtMs, lastStatus, lastDurationMs, nextRunAtMs }
  | _ => none

/-- Modelled from the spec: one `CronJob` as persisted in the JSON
document (§3 field shapes). -/
def encodeJob (j : CronJob) : Json :=
  .obj [("id", .str j.id),
        ("name", .str j.name),
        ("enabled", .bool j.enabled),
        ("deleteAfterRun", .bool j.deleteAfterRun),
        ("createdAtMs", .num j.createdAtMs),
        ("updatedAtMs", .num j.updatedAtMs),
        ("schedule", encodeSchedule j.schedule),
        ("sessionTarget", encodeSessionTarget j.sessionTarget),
        ("wakeMode", encodeWakeMode j.wakeMode),
        ("payload", encodePayload j.payload),
        ("delivery", encodeDelivery j.delivery),
        ("state", encodeJobState j.state)]

/-- Parse one persisted `CronJob`. -/
def decodeJob : Json → Option CronJob
  | .obj [("id", .str id), ("name", .str name), ("enabled", .bool enabled),
          ("deleteAfterRun", .bool deleteAfterRun), ("createdAtMs", .num createdAtMs),
          ("updatedAtMs", .num updatedAtMs), ("schedule", sc), ("sessionTarget", st),
          ("wakeMode", w), ("payload", p), ("delivery", d), ("state", s)] => do
      let schedule ← decodeSchedule sc
      let sessionTarget ← decodeSessionTarget st
      let wakeMode ← decodeWakeMode w
      let payload ← decodePayload p
      let delivery ← decodeDelivery d
      let state ← decodeJobState s
      some { id, name, enabled, deleteAfterRun, createdAtMs, updatedAtMs,
             schedule, sessionTarget, wakeMode, payload, delivery, state }
  | _ => none

/-- Modelled from the spec: the whole persisted document,
`{version: integer, jobs: CronJob[]}`. -/
def encodeStore (s : CronStore) : Json :=
  .obj [("version", .num s.version), ("jobs", .arr (s.jobs.map encodeJob))]

/-- Parse the persisted `jobs` array element by element; any malformed
entry makes the whole parse fail. -/
def decodeJobs : List Json → Option (List CronJob)
  | [] => some []
  | j :: rest => do
      let job ← decodeJob j
      let jobs ← decodeJobs rest
      some (job :: jobs)

/-- Parse the whole persisted document. -/
def decodeStore : Json → Option CronStore
  | .obj [("version", .num version), ("jobs", .arr jobs)] => do
      let jobs ← decodeJobs jobs
      some { version, jobs }
  | _ => none

/-- Modelled from the spec: `StoreCorrupt` — the unreadable/malformed
persisted-file condition of the error taxonomy (§7). -/
inductive StoreError
  | storeCorrupt
deriving DecidableEq, Repr

/-- Modelled from the spec: `ensureLoaded()` — returns the cached
in-memory store when present; a missing file is treated as the empty store
`{version: 1, jobs: []}`; a malformed file fails with `StoreCorrupt`. The
file system is abstracted as the optional JSON document at the store
path. -/
def ensureLoaded (cached : Option CronStore) (file : Option Json) :
    Except StoreError CronStore :=
  match cached with
  | some s => .ok s
  | none =>
    match file with
    | none => .ok { version := 1, jobs := [] }
    | some doc =>
      match decodeStore doc with
      | some s => .ok s
      | none => .error .storeCorrupt

/-- Modelled from the spec: `persist(store)` — the JSON document the
atomic whole-file rewrite leaves at the store path. -/
def persist (s : CronStore) : Json :=
  encodeStore s

/-! ## Global plugin hook runner (src/plugins/hook-runner-global.ts) -/

/-- The typed hook runner built by `createHookRunner` (src/plugins/hooks.ts
is out of scope here); this module consumes only its `hasHooks` method. -/
structure HookRunner where
  hasHooks : String → Bool

/-- The plugin registry; hook-runner-global.ts reads only `registry.hooks`
(a list of registered hooks), and that only for a log line. -/
structure PluginRegistry where
  hooks : List String

/-- The `HookRunnerState` record stored under the `openclaw:hookRunner`
global symbol: `{runner: HookRunner | null, registry: PluginRegistry | null}`. -/
structure HookRunnerState where
  runner : Option HookRunner
  registry : Option PluginRegistry

/-- The state freshly installed under the global symbol before any
initialization: `{ runner: null, registry: null }`. -/
def initialHookRunnerState : HookRunnerState :=
  { runner := none, registry := none }

/-- `initializeGlobalHookRunner(registry)`: stores the registry and a hook
runner freshly created from it (`createHookRunner` is a parameter since
hooks.ts is out of scope). -/
def initializeGlobalHookRunner (createHookRunner : PluginRegistry → HookRunner)
    (registry : PluginRegistry) (_s : HookRunnerState) : HookRunnerState :=
  { registry := some registry, runner := some (createHookRunner registry) }

/-- `getGlobalHookRunner()`: returns `hookRunnerState.runner` (null when
plugins have not been loaded yet). -/
def getGlobalHookRunner (s : HookRunnerState) : Option HookRunner :=
  s.runner

/-- `getGlobalPluginRegistry()`: returns `hookRunnerState.registry`. -/
def getGlobalPluginRegistry (s : HookRunnerState) : Option PluginRegistry :=
  s.registry

/-- `hasGlobalHooks(hookName)`:
`hookRunnerState.runner?.hasHooks(hookName) ?? false`. -/
def hasGlobalHooks (s : HookRunnerState) (hookName : String) : Bool :=
  match s.runner with
  | some r => r.hasHooks hookName
  | none => false

/-- `resetGlobalHookRunner()`: sets both fields back to null. -/
def resetGlobalHookRunner (_s : HookRunnerState) : HookRunnerState :=
  { runner := none, registry := none }

/-! ## Onboarding credential helpers (src/commands/onboard-auth.credentials.ts) -/

/-- A secret reference from config/types.secrets.ts; this module builds
only env-sourced references (`buildEnvSecretRef`). -/
structure SecretRef where
  source : String
  id : String
deriving DecidableEq, Repr

/-- `SecretInput = string | SecretRef`. -/
inductive SecretInput
  | str (s : String)
  | ref (r : SecretRef)
deriving DecidableEq, Repr

/-- `buildEnvSecretRef(id)`: `{ source: "env", id }`. -/
def buildEnvSecretRef (id : String) : SecretRef :=
  { source := "env", id }

/-- First character class of `ENV_REF_PATTERN`'s capture group: `[A-Z]`. -/
def isEnvRefHeadChar (c : Char) : Bool :=
  decide ('A'.toNat ≤ c.toNat) && decide (c.toNat ≤ 'Z'.toNat)

/-- Remaining character class of the capture group: `[A-Z0-9_]`. -/
def isEnvRefTailChar (c : Char) : Bool :=
  (decide ('A'.toNat ≤ c.toNat) && decide (c.toNat ≤ 'Z'.toNat)) ||
  (decide ('0'.toNat ≤ c.toNat) && decide (c.toNat ≤ '9'.toNat)) ||
  decide (c = '_')

/-- The capture group `[A-Z][A-Z0-9_]*` of `ENV_REF_PATTERN`. -/
def isEnvVarNameChars : List Char → Bool
  | [] => false
  | c :: rest => isEnvRefHeadChar c && rest.all isEnvRefTailChar

/-- `parseEnvSecretRef(value)`: match the anchored pattern
`ENV_REF_PATTERN = /^\$\x7b([A-Z][A-Z0-9_]*)\x7d$/` — a leading `"$\x7b"`,
the capture group, and a final `"\x7d"` ending the string — and build an
env secret reference from the capture group. -/
def parseEnvSecretRef (value : String) : Option SecretRef :=
  match value.data with
  | '$' :: '\x7b' :: rest =>
    if rest.getLast? = some '\x7d' && isEnvVarNameChars rest.dropLast then
      some (buildEnvSecretRef ⟨rest.dropLast⟩)
    else
      none
  | _ => none

/-- The ambient inputs of the credential helpers: the
`normalizeSecretInput` util (its module is out of scope here), the
`PROVIDER_ENV_VARS` table, and the process environment. -/
structure CredentialEnv where
  normalizeSecretInput : String → String
  providerEnvVars : String → Option (List String)
  envVar : String → Option String

/-- `inferProviderEnvSecretRef(provider, value)`: when a known provider
env var's normalized value is non-empty and equals `value`, reference that
env var instead of the inline secret. -/
def inferProviderEnvSecretRef (ce : CredentialEnv) (provider value : String) :
    Option SecretRef :=
  match ce.providerEnvVars provider with
  | none => none
  | some envVars =>
    if value.length = 0 then none
    else
      envVars.findSome? fun envVar =>
        let envValue := ce.normalizeSecretInput ((ce.envVar envVar).getD "")
        if envValue ≠ "" && envValue = value then some (buildEnvSecretRef envVar)
        else none

/-- `resolveApiKeySecretInput(provider, input)`: pass secret references
through; normalize strings, then prefer an inline `$\x7bVAR\x7d` reference,
then an inferred provider env var reference, else keep the normalized
string. -/
def resolveApiKeySecretInput (ce : CredentialEnv) (provider : String) :
    SecretInput → SecretInput
  | .ref r => .ref r
  | .str s =>
    let normalized := ce.normalizeSecretInput s
    match parseEnvSecretRef normalized with
    | some inlineEnvRef => .ref inlineEnvRef
    | none =>
      match inferProviderEnvSecretRef ce provider normalized with
      | some inferredEnvRef => .ref inferredEnvRef
      | none => .str normalized

/-- The credential record `buildApiKeyCredential` returns: a string secret
becomes the `key` field, a secret reference becomes `keyRef`. -/
structure ApiKeyCredential where
  type : String
  provider : String
  key : Option String
  keyRef : Option SecretRef
  metadata : Option (List (String × String))
deriving DecidableEq, Repr

/-- `buildApiKeyCredential(provider, input, metadata?)`. -/
def buildApiKeyCredential (ce : CredentialEnv) (provider : String)
    (input : SecretInput) (metadata : Option (List (String × String))) :
    ApiKeyCredential :=
  match resolveApiKeySecretInput ce provider input with
  | .str secretInput =>
      { type := "api_key", provider, key := some secretInput, keyRef := none, metadata }
  | .ref secretInput =>
      { type := "api_key", provider, key := none, keyRef := some secretInput, metadata }

/-- The record handed to `upsertAuthProfile` (auth-profiles.ts is out of
scope; the write itself stores this record verbatim). -/
structure AuthProfileWrite where
  profileId : String
  credential : ApiKeyCredential
  agentDir : String
deriving DecidableEq, Repr

/-- `resolveAuthAgentDir(agentDir?) = agentDir ?? resolveOpenClawAgentDir()`;
the resolver's result is the parameter `defaultAgentDir`. -/
def resolveAuthAgentDir (defaultAgentDir : String) : Option String → String
  | some d => d
  | none => defaultAgentDir

/-- `setOpenrouterApiKey(key, agentDir?)`: replaces a literal
`"undefined"` string key with `""` before building the
`openrouter:default` api-key credential. -/
def setOpenrouterApiKey (ce : CredentialEnv) (defaultAgentDir : String)
    (key : SecretInput) (agentDir : Option String) : AuthProfileWrite :=
  let safeKey : SecretInput :=
    match key with
    | .str s => if s = "undefined" then .str "" else .str s
    | .ref r => .ref r
  { profileId := "openrouter:default"
    credential := buildApiKeyCredential ce "openrouter" safeKey none
    agentDir := resolveAuthAgentDir defaultAgentDir agentDir }

/-! ## Helper lemmas -/

theorem decodeOptInt_encodeOptInt (o : Option ℤ) :
    decodeOptInt (encodeOptInt o) = some o := by
  cases o <;> rfl

theorem decodeOptStr_encodeOptStr (o : Option String) :
    decodeOptStr (encodeOptStr o) = some o := by
  cases o <;> rfl

theorem decodeSchedule_encodeSchedule (s : Schedule) :
    decodeSchedule (encodeSchedule s) = some s := by
  cases s <;> rfl

set_option maxHeartbeats 1000000 in
theorem decodeJob_encodeJob (j : CronJob) :
    decodeJob (encodeJob j) = some j := by
  obtain ⟨id, name, en, dar, c, u, sc, st, w, p, d, l1, l2, l3, l4⟩ := j
  cases sc <;> cases st <;> cases w <;> cases p <;> cases d <;>
    cases l1 <;> cases l2 <;> cases l3 <;> cases l4 <;> rfl

theorem decodeJobs_map_encodeJob (jobs : List CronJob) :
    decodeJobs (jobs.map encodeJob) = some jobs := by
  induction jobs with
  | nil => rfl
  | cons j rest ih => simp [decodeJobs, decodeJob_encodeJob j, ih]

theorem decodeStore_encodeStore (s : CronStore) :
    decodeStore (encodeStore s) = some s := by
  obtain ⟨version, jobs⟩ := s
  simp [encodeStore, decodeStore, decodeJobs_map_encodeJob]

/-- A tick never rewrites a job's identity: whatever `processJob` keeps in
the store has the id of the job it came from. -/
theorem processJob_id (env : TickEnv) (j j' : CronJob)
    (h : processJob env j = some j') : j'.id = j.id := by
  unfold processJob at h
  by_cases hc : (j.enabled && isEligible j env.nowMs) = true
  · rw [if_pos hc] at h
    unfold recordOutcome at h
    cases hr : env.runner j with
    | success result durationMs =>
      rw [hr] at h
      by_cases hd : j.deleteAfterRun = true
      · simp [hd] at h
      · simp [hd] at h
        simp [← h]
    | failure durationMs =>
      rw [hr] at h
      simp at h
      simp [← h]
  · rw [if_neg hc] at h
    simp at h
    simp [← h]

/-- The ids dispatched by a tick all occur among the store's job ids. -/
theorem onTimer_dispatched_subset (env : TickEnv) (store : CronStore) :
    ∀ i ∈ (onTimer env store).2, i ∈ store.jobs.map (·.id) := by
  intro i hi
  simp only [onTimer, List.mem_map] at hi
  obtain ⟨j, hj, rfl⟩ := hi
  exact List.mem_map.mpr ⟨j, List.mem_of_mem_filter hj, rfl⟩

/-! ## Concrete fixtures

These mirror the scenarios of
src/cron/service.prevents-refire-within-gap.test.ts; `Date.parse` values
are written out as epoch milliseconds. -/

/-- A runner that always resolves `{status: "ok", summary: "ok"}`. -/
def okRunner : CronJob → RunOutcome :=
  fun _ => .success { status := "ok", summary := "ok" } 0

/-- A cron library stub; irrelevant to dispatched-or-not observations. -/
def noCron : String → String → ℤ → Option ℤ :=
  fun _ _ _ => none

/-- `Date.parse("2026-02-14T16:02:30.000Z")`. -/
def nowWithinGap : ℤ := 1771084950000

/-- Test "skips a job whose lastRunAtMs is within MIN_REFIRE_GAP_MS": a
cron job that ran 1 s ago whose `nextRunAtMs` still points at the stale
`2026-02-14T08:00:00.000Z`. -/
def exerciseReminderJob : CronJob :=
  { id := "exercise-reminder"
    name := "exercise-reminder"
    enabled := true
    deleteAfterRun := false
    createdAtMs := nowWithinGap - 86400000
    updatedAtMs := nowWithinGap - 86400000
    schedule := .cron "0 16 * * *" "Asia/Shanghai"
    sessionTarget := .isolated
    wakeMode := .now
    payload := .agentTurn "Exercise time!"
    delivery := .announce
    state :=
      { lastRunAtMs := some (nowWithinGap - 1000)
        lastStatus := some "ok"
        lastDurationMs := some 155000
        nextRunAtMs := some 1771056000000 } }

/-- `Date.parse("2026-02-14T16:00:01.000Z")`. -/
def nowBeyondGap : ℤ := 1771084801000

/-- Test "allows a job to run when lastRunAtMs is older than
MIN_REFIRE_GAP_MS": the same cron schedule, last run >24 h ago, due since
1 s ago. -/
def exerciseReminder2Job : CronJob :=
  { id := "exercise-reminder-2"
    name := "exercise-reminder-2"
    enabled := true
    deleteAfterRun := false
    createdAtMs := nowBeyondGap - 86400000
    updatedAtMs := nowBeyondGap - 86400000
    schedule := .cron "0 16 * * *" "Asia/Shanghai"
    sessionTarget := .isolated
    wakeMode := .now
    payload := .agentTurn "Exercise time!"
    delivery := .announce
    state :=
      { lastRunAtMs := some (nowBeyondGap - 86400000)
        lastStatus := some "ok"
        lastDurationMs := none
        nextRunAtMs := some (nowBeyondGap - 1000) } }

/-- `Date.parse("2026-02-14T16:00:10.000Z")`. -/
def nowFrequent : ℤ := 1771084810000

/-- Test "does not block short-interval 'every' schedules": an
`every: 10s` job that ran 10 s ago. -/
def frequentCheckJob : CronJob :=
  { id := "frequent-check"
    name := "frequent-check"
    enabled := true
    deleteAfterRun := false
    createdAtMs := nowFrequent - 86400000
    updatedAtMs := nowFrequent - 86400000
    schedule := .every 10000
    sessionTarget := .isolated
    wakeMode := .nextHeartbeat
    payload := .agentTurn "Quick check"
    delivery := .none
    state :=
      { lastRunAtMs := some (nowFrequent - 10000)
        lastStatus := some "ok"
        lastDurationMs := none
        nextRunAtMs := some (nowFrequent - 1) } }

/-- `Date.parse("2026-02-14T16:00:02.000Z")`. -/
def nowFast : ℤ := 1771084802000

/-- Test "does not block very fast 'every' schedules
(< MIN_REFIRE_GAP_MS)": an `every: 1.5s` job that ran 1.5 s ago. -/
def fastCheckJob : CronJob :=
  { id := "fast-check"
    name := "fast-check"
    enabled := true
    deleteAfterRun := false
    createdAtMs := nowFast - 86400000
    updatedAtMs := nowFast - 86400000
    schedule := .every 1500
    sessionTarget := .isolated
    wakeMode := .nextHeartbeat
    payload := .agentTurn "Fast check"
    delivery := .none
    state :=
      { lastRunAtMs := some (nowFast - 1500)
        lastStatus := some "ok"
        lastDurationMs := none
        nextRunAtMs := some (nowFast - 1) } }

/-! ## Claims -/

/-- C1: the Refire Guard `isEligible(job, nowMs)` holds exactly when the
job is due (`nextRunAtMs ≤ nowMs`) and `lastRunAtMs` is undefined or
`nowMs − lastRunAtMs ≥ minRefireGap(job.schedule)`; concretely, the cron
job with `lastRunAtMs = nowMs − 1000` and a stale past `nextRunAtMs` is
not dispatched by the tick, while the one with
`lastRunAtMs = nowMs − 86400000` and `nextRunAtMs = nowMs − 1000` is
dispatched exactly once. -/
theorem isEligible_iff_due_and_gap :
    (∀ (job : CronJob) (nowMs : ℤ),
       isEligible job nowMs = true ↔
         ((∃ next, job.state.nextRunAtMs = some next ∧ next ≤ nowMs) ∧
          (job.state.lastRunAtMs = none ∨
            ∃ last, job.state.lastRunAtMs = some last ∧
              minRefireGap job.schedule ≤ ((nowMs - last : ℤ) : ℚ)))) ∧
    (onTimer { nowMs := nowWithinGap, runner := okRunner, cronNext := noCron }
        { version := 1, jobs := [exerciseReminderJob] }).2 = [] ∧
    (onTimer { nowMs := nowBeyondGap, runner := okRunner, cronNext := noCron }
        { version := 1, jobs := [exerciseReminder2Job] }).2 = ["exercise-reminder-2"] := by
  refine ⟨?_, ?_, ?_⟩
  · intro job nowMs
    rcases hn : job.state.nextRunAtMs with _ | next <;>
      rcases hl : job.state.lastRunAtMs with _ | last <;>
        simp [isEligible, isDue, hn, hl]
  · simp [onTimer, exerciseReminderJob, nowWithinGap, isEligible, isDue,
      minRefireGap, MIN_REFIRE_GAP_MS]
    norm_num
  · simp [onTimer, exerciseReminder2Job, nowBeyondGap, isEligible, isDue,
      minRefireGap, MIN_REFIRE_GAP_MS]
    norm_num

/-- C2: `minRefireGap` is the 2000 ms floor for `"cron"` schedules and for
`"every"` schedules is `everyMs / 2` when `everyMs < 2 × 2000` and the
floor otherwise; consequently the due `every: 1500ms` job whose last run
was 1500 ms ago is dispatched (its gap is 750 ms, not 2000 ms). -/
theorem minRefireGap_spec :
    (∀ expr tz, minRefireGap (.cron expr tz) = 2000) ∧
    (∀ everyMs : ℤ, minRefireGap (.every everyMs) =
       if (everyMs : ℚ) < 2 * 2000 then (everyMs : ℚ) / 2 else 2000) ∧
    minRefireGap (.every 1500) = 750 ∧
    minRefireGap (.every 10000) = 2000 ∧
    (onTimer { nowMs := nowFast, runner := okRunner, cronNext := noCron }
        { version := 1, jobs := [fastCheckJob] }).2 = ["fast-check"] ∧
    (onTimer { nowMs := nowFrequent, runner := okRunner, cronNext := noCron }
        { version := 1, jobs := [frequentCheckJob] }).2 = ["frequent-check"] := by
  refine ⟨fun _ _ => rfl, fun _ => rfl, ?_, ?_, ?_, ?_⟩
  · norm_num [minRefireGap, MIN_REFIRE_GAP_MS]
  · norm_num [minRefireGap, MIN_REFIRE_GAP_MS]
  · simp [onTimer, fastCheckJob, nowFast, isEligible, isDue,
      minRefireGap, MIN_REFIRE_GAP_MS]
    norm_num
  · simp [onTimer, frequentCheckJob, nowFrequent, isEligible, isDue,
      minRefireGap, MIN_REFIRE_GAP_MS]
    norm_num

/-- A job used to witness tick-level properties: eligible at `nowMs = 0`
(due at 0, never run before). -/
def witnessBaseJob : CronJob :=
  { id := "witness-job"
    name := "witness-job"
    enabled := true
    deleteAfterRun := false
    createdAtMs := 0
    updatedAtMs := 0
    schedule := .every 10000
    sessionTarget := .isolated
    wakeMode := .now
    payload := .agentTurn "hi"
    delivery := .announce
    state :=
      { lastRunAtMs := none, lastStatus := none
        lastDurationMs := none, nextRunAtMs := some 0 } }

/-- A runner that rejects every job (elapsed 5 ms). -/
def failRunner : CronJob → RunOutcome :=
  fun _ => .failure 5

/-- C3: one job's runner rejection never aborts the tick — which jobs a
tick dispatches does not depend on the runner (or the cron library) at
all — and a job whose runner rejected is still in the store afterwards
with a failure `lastStatus` and freshly consumed
`lastRunAtMs`/`nextRunAtMs`. -/
theorem runnerFailure_contained :
    (∀ (nowMs : ℤ) (runner runner' : CronJob → RunOutcome)
       (cronNext cronNext' : String → String → ℤ → Option ℤ) (store : CronStore),
       (onTimer ⟨nowMs, runner, cronNext⟩ store).2 =
       (onTimer ⟨nowMs, runner', cronNext'⟩ store).2) ∧
    (∀ (env : TickEnv) (store : CronStore) (job : CronJob) (d : ℤ),
       job ∈ store.jobs →
       (job.enabled && isEligible job env.nowMs) = true →
       env.runner job = .failure d →
       { job with state :=
           { lastRunAtMs := some env.nowMs
             lastStatus := some "error"
             lastDurationMs := some d
             nextRunAtMs := computeNextRun env.cronNext job.schedule env.nowMs none } }
         ∈ (onTimer env store).1.jobs) := by
  constructor
  · intro _ _ _ _ _ _
    rfl
  · intro env store job d hmem helig hrun
    refine List.mem_filterMap.mpr ⟨job, hmem, ?_⟩
    simp [processJob, helig, hrun, recordOutcome]

/-- Witness for C3: a concrete tick whose only job's runner rejects still
keeps the job, recording the failure and consuming the slot. -/
theorem runnerFailure_contained_witness :
    { witnessBaseJob with state :=
        { lastRunAtMs := some 0
          lastStatus := some "error"
          lastDurationMs := some 5
          nextRunAtMs := some 10000 } }
      ∈ (onTimer { nowMs := 0, runner := failRunner, cronNext := noCron }
          { version := 1, jobs := [witnessBaseJob] }).1.jobs :=
  runnerFailure_contained.2
    { nowMs := 0, runner := failRunner, cronNext := noCron }
    { version := 1, jobs := [witnessBaseJob] }
    witnessBaseJob 5 (by simp) (by decide) rfl

/-- C4: a one-shot job (`deleteAfterRun = true`) whose run succeeds is
removed from the store instead of having its state updated, and (ids being
unique per the store invariant) its id is gone from the resulting store
and cannot be dispatched by a later tick. -/
theorem deleteAfterRun_removed :
    (∀ (env : TickEnv) (job : CronJob) (result : RunResult) (d : ℤ),
       job.deleteAfterRun = true →
       recordOutcome env job (.success result d) = none) ∧
    (∀ (env : TickEnv) (store : CronStore) (job : CronJob),
       job ∈ store.jobs →
       (store.jobs.map (·.id)).Nodup →
       job.deleteAfterRun = true →
       (job.enabled && isEligible job env.nowMs) = true →
       (∃ result d, env.runner job = .success result d) →
       job.id ∉ (onTimer env store).1.jobs.map (·.id) ∧
       ∀ env' : TickEnv, job.id ∉ (onTimer env' (onTimer env store).1).2) := by
  constructor
  · intro env job result d hdel
    simp [recordOutcome, hdel]
  · intro env store job hmem hnodup hdel helig hsucc
    have habs : job.id ∉ (onTimer env store).1.jobs.map (·.id) := by
      intro habs
      simp only [onTimer, List.mem_map] at habs
      obtain ⟨j', hj', hid⟩ := habs
      obtain ⟨j0, hj0, hproc⟩ := List.mem_filterMap.mp hj'
      have hid0 : j0.id = job.id := (processJob_id env j0 j' hproc) ▸ hid
      have hj0eq : j0 = job := List.inj_on_of_nodup_map hnodup hj0 hmem hid0
      subst hj0eq
      obtain ⟨result, d, hrun⟩ := hsucc
      rw [processJob, if_pos helig, hrun] at hproc
      rw [recordOutcome, if_pos hdel] at hproc
      exact Option.noConfusion hproc
    refine ⟨habs, fun env' hdisp => ?_⟩
    exact habs (onTimer_dispatched_subset env' _ _ hdisp)

/-- The one-shot variant of the witness job. -/
def onceJob : CronJob :=
  { witnessBaseJob with id := "once-job", name := "once-job", deleteAfterRun := true }

/-- Witness for C4: a concrete one-shot job that succeeds is absent from
the post-tick store and not dispatched by the following tick. -/
theorem deleteAfterRun_removed_witness :
    onceJob.id ∉ (onTimer { nowMs := 0, runner := okRunner, cronNext := noCron }
        { version := 1, jobs := [onceJob] }).1.jobs.map (·.id) ∧
    onceJob.id ∉ (onTimer { nowMs := 20000, runner := okRunner, cronNext := noCron }
        (onTimer { nowMs := 0, runner := okRunner, cronNext := noCron }
          { version := 1, jobs := [onceJob] }).1).2 :=
  ⟨(deleteAfterRun_removed.2
      { nowMs := 0, runner := okRunner, cronNext := noCron }
      { version := 1, jobs := [onceJob] } onceJob
      (by simp) (by simp) rfl (by decide)
      ⟨{ status := "ok", summary := "ok" }, 0, rfl⟩).1,
   (deleteAfterRun_removed.2
      { nowMs := 0, runner := okRunner, cronNext := noCron }
      { version := 1, jobs := [onceJob] } onceJob
      (by simp) (by simp) rfl (by decide)
      ⟨{ status := "ok", summary := "ok" }, 0, rfl⟩).2
    { nowMs := 20000, runner := okRunner, cronNext := noCron }⟩

/-- C5: a disabled job is never dispatched by any tick however overdue its
`nextRunAtMs` is, and it survives the tick verbatim — the whole record,
its persisted state fields included, is still in the store. -/
theorem disabledJob_skipped :
    ∀ (env : TickEnv) (store : CronStore) (job : CronJob),
      job ∈ store.jobs → job.enabled = false →
      job ∈ (onTimer env store).1.jobs ∧
      ((store.jobs.map (·.id)).Nodup → job.id ∉ (onTimer env store).2) := by
  intro env store job hmem hdis
  constructor
  · exact List.mem_filterMap.mpr ⟨job, hmem, by simp [processJob, hdis]⟩
  · intro hnodup hdisp
    simp only [onTimer, List.mem_map] at hdisp
    obtain ⟨j0, hj0, hid⟩ := hdisp
    have hj0mem := List.mem_of_mem_filter hj0
    have hj0eq : j0 = job := List.inj_on_of_nodup_map hnodup hj0mem hmem hid
    subst hj0eq
    have hp := List.of_mem_filter hj0
    simp [hdis] at hp

/-- A disabled job, long overdue at `nowMs = 0`. -/
def disabledJob : CronJob :=
  { witnessBaseJob with
    id := "disabled-job"
    name := "disabled-job"
    enabled := false
    state := { lastRunAtMs := none, lastStatus := none
               lastDurationMs := none, nextRunAtMs := some (-999999999) } }

/-- Witness for C5: the concrete disabled, badly overdue job is untouched
and undispatched. -/
theorem disabledJob_skipped_witness :
    disabledJob ∈ (onTimer { nowMs := 0, runner := okRunner, cronNext := noCron }
        { version := 1, jobs := [disabledJob] }).1.jobs ∧
    disabledJob.id ∉ (onTimer { nowMs := 0, runner := okRunner, cronNext := noCron }
        { version := 1, jobs := [disabledJob] }).2 :=
  ⟨(disabledJob_skipped
      { nowMs := 0, runner := okRunner, cronNext := noCron }
      { version := 1, jobs := [disabledJob] } disabledJob (by simp) rfl).1,
   (disabledJob_skipped
      { nowMs := 0, runner := okRunner, cronNext := noCron }
      { version := 1, jobs := [disabledJob] } disabledJob (by simp) rfl).2 (by simp)⟩

/-- C6: a missing persisted file loads as the empty store
`{version: 1, jobs: []}` without error, while any document the store
parser rejects makes the load fail with `StoreCorrupt` instead of being
silently discarded or repaired. -/
theorem ensureLoaded_missing_empty_corrupt_error :
    ensureLoaded none none = .ok { version := 1, jobs := [] } ∧
    ∀ doc : Json, decodeStore doc = none →
      ensureLoaded none (some doc) = .error .storeCorrupt := by
  refine ⟨rfl, fun doc h => ?_⟩
  simp [ensureLoaded, h]

/-- Witness for C6: a concrete malformed document (a bare string where the
store object should be) fails the load with `StoreCorrupt`. -/
theorem ensureLoaded_corrupt_witness :
    ensureLoaded none (some (Json.str "not a store")) = .error .storeCorrupt :=
  ensureLoaded_missing_empty_corrupt_error.2 (Json.str "not a store") rfl

/-- C7: persistence round-trips losslessly — every store's persisted
document parses back to exactly the same store, so persisting and then
reloading yields equivalent job data for every documented field. -/
theorem persist_roundtrip (s : CronStore) :
    decodeStore (persist s) = some s ∧
    ensureLoaded none (some (persist s)) = .ok s := by
  refine ⟨decodeStore_encodeStore s, ?_⟩
  simp [ensureLoaded, persist, decodeStore_encodeStore s]

/-- C8: for `"every"` schedules `computeNextRun` is exactly
`fromMs + everyMs`, whatever the cron library and whatever timezone
argument is supplied. -/
theorem computeNextRun_every_spec :
    ∀ (cronNext : String → String → ℤ → Option ℤ) (everyMs fromMs : ℤ)
      (tz tz' : Option String),
      computeNextRun cronNext (.every everyMs) fromMs tz = some (fromMs + everyMs) ∧
      computeNextRun cronNext (.every everyMs) fromMs tz =
        computeNextRun cronNext (.every everyMs) fromMs tz' := by
  intro _ _ _ _ _
  exact ⟨rfl, rfl⟩

/-- C9: before any initialization — and again after any
`resetGlobalHookRunner()` — `getGlobalHookRunner()` and
`getGlobalPluginRegistry()` are null and `hasGlobalHooks(name)` is false
for every hook name instead of throwing. -/
theorem globalHookRunner_null_when_uninitialized :
    getGlobalHookRunner initialHookRunnerState = none ∧
    getGlobalPluginRegistry initialHookRunnerState = none ∧
    (∀ name, hasGlobalHooks initialHookRunnerState name = false) ∧
    ∀ s : HookRunnerState,
      getGlobalHookRunner (resetGlobalHookRunner s) = none ∧
      getGlobalPluginRegistry (resetGlobalHookRunner s) = none ∧
      ∀ name, hasGlobalHooks (resetGlobalHookRunner s) name = false :=
  ⟨rfl, rfl, fun _ => rfl, fun _ => ⟨rfl, rfl, fun _ => rfl⟩⟩

/-- A credential environment with identity normalization, no provider env
var table entries and an empty process environment. -/
def plainCredentialEnv : CredentialEnv :=
  { normalizeSecretInput := id
    providerEnvVars := fun _ => none
    envVar := fun _ => none }

/-- C10 counterexample: a key that normalizes to the inline env-reference
shape is NOT stored as given — the credential built for
`setOpenrouterApiKey("$\x7bFOO\x7d")` carries no `key` at all, only an env
`keyRef`. -/
theorem setOpenrouterApiKey_envref_counterexample :
    (setOpenrouterApiKey plainCredentialEnv "/agent"
        (.str "$\x7bFOO\x7d") none).credential.key = none ∧
    (setOpenrouterApiKey plainCredentialEnv "/agent"
        (.str "$\x7bFOO\x7d") none).credential.keyRef =
      some { source := "env", id := "FOO" } := by
  constructor <;> rfl

/-- Empty input never survives `parseEnvSecretRef`. -/
theorem parseEnvSecretRef_empty : parseEnvSecretRef "" = none := by
  decide

/-- Empty input never survives `inferProviderEnvSecretRef`, whatever the
provider table and process environment hold. -/
theorem inferProviderEnvSecretRef_empty (ce : CredentialEnv) (provider : String) :
    inferProviderEnvSecretRef ce provider "" = none := by
  unfold inferProviderEnvSecretRef
  cases ce.providerEnvVars provider <;> simp

/-- C10 (amended): `setOpenrouterApiKey` never persists the literal string
"undefined": a `"undefined"` key is stored with the empty-string key
(normalization fixing the empty string); any other string key is stored
after normalization as given — unless the normalized key matches the
inline env-reference pattern or a provider env var's value, in which case
an env `keyRef` is stored instead of a key. -/
theorem setOpenrouterApiKey_never_undefined :
    ∀ (ce : CredentialEnv) (defaultAgentDir : String) (agentDir : Option String),
      (ce.normalizeSecretInput "" = "" →
        (setOpenrouterApiKey ce defaultAgentDir (.str "undefined") agentDir).credential =
          { type := "api_key", provider := "openrouter", key := some "",
            keyRef := none, metadata := none }) ∧
      (∀ k : String, k ≠ "undefined" →
        parseEnvSecretRef (ce.normalizeSecretInput k) = none →
        inferProviderEnvSecretRef ce "openrouter" (ce.normalizeSecretInput k) = none →
        (setOpenrouterApiKey ce defaultAgentDir (.str k) agentDir).credential =
          { type := "api_key", provider := "openrouter",
            key := some (ce.normalizeSecretInput k),
            keyRef := none, metadata := none }) := by
  intro ce defaultAgentDir agentDir
  constructor
  · intro h0
    simp [setOpenrouterApiKey, buildApiKeyCredential, resolveApiKeySecretInput, h0,
      parseEnvSecretRef_empty, inferProviderEnvSecretRef_empty]
  · intro k hk hparse hinfer
    simp [setOpenrouterApiKey, hk, buildApiKeyCredential, resolveApiKeySecretInput,
      hparse, hinfer]

/-- Witness for C10: with identity normalization, the "undefined" key is
stored as the empty string, and an ordinary key is stored verbatim. -/
theorem setOpenrouterApiKey_never_undefined_witness :
    (setOpenrouterApiKey plainCredentialEnv "/agent" (.str "undefined") none).credential =
      { type := "api_key", provider := "openrouter", key := some "",
        keyRef := none, metadata := none } ∧
    (setOpenrouterApiKey plainCredentialEnv "/agent" (.str "sk-test-123") none).credential =
      { type := "api_key", provider := "openrouter", key := some "sk-test-123",
        keyRef := none, metadata := none } :=
  ⟨(setOpenrouterApiKey_never_undefined plainCredentialEnv "/agent" none).1 rfl,
   (setOpenrouterApiKey_never_undefined plainCredentialEnv "/agent" none).2 "sk-test-123"
     (by decide) (by decide) rfl⟩

end Openclaw
